import Mathlib

/-!
Verification of the point-cloud analysis pipeline in
`src/server/utils/generate_report.py`.

The development shallowly embeds the pipeline:
* `PyFloat` models a Python float value as an exact rational together with
  the non-finite values `inf`, `-inf` and `nan` (decimal-to-binary rounding
  is not modelled; every concrete value used below is exactly representable).
* `parse_xyz_file` embeds the parser (lines 34-69 of the source), with the
  input file given as its list of lines.
* `calculate_statistics` embeds the axis statistics (lines 72-104) over
  real-valued coordinates, matching the data model's real-valued points.
* `calculate_nearest_neighbor_distance` embeds the nearest-neighbour
  computation (lines 107-141); the random draw performed by
  `np.random.choice(len(points), sample_size, replace=False)` is passed in
  explicitly as the list of chosen indices, and `ValidDraw` characterises
  exactly the index lists that call can produce.
* `main` embeds the orchestrator (lines 403-458); the external collaborators
  (file system, matplotlib rendering, reportlab assembly) are oracles in
  `OrchEnv`, and process output is modelled as lists of stdout/stderr lines.
-/

namespace GenReport

/-- A Python float value: a finite rational, positive or negative infinity,
or NaN.  The finite case carries the exact decimal value; IEEE-754 rounding
is not modelled (all concrete values in this file are exactly representable
in binary64). -/
inductive PyFloat where
  | finite (q : ℚ)
  | inf
  | negInf
  | nan
deriving DecidableEq, Repr

/-- Longest leading run of decimal digits allowing single underscores between
digits, as in Python's float literal grammar.  Returns the digits (with the
underscores removed) and the unconsumed remainder. -/
def digitPartAux : List Char → List Char × List Char
  | [] => ([], [])
  | c :: rest =>
    if c.isDigit then
      let (d, r) := digitPartAux rest
      (c :: d, r)
    else if c = '_' then
      match rest with
      | [] => ([], ['_'])
      | d :: r2 =>
        if d.isDigit then
          let (ds, r3) := digitPartAux r2
          (d :: ds, r3)
        else ([], '_' :: d :: r2)
    else ([], c :: rest)

/-- A `digitpart` of Python's float grammar: must start with a digit. -/
def digitPart : List Char → Option (List Char × List Char)
  | [] => none
  | c :: rest => if c.isDigit then some (digitPartAux (c :: rest)) else none

/-- Numeric value of a list of decimal digits. -/
def digitsVal (ds : List Char) : ℕ :=
  ds.foldl (fun a c => 10 * a + (c.toNat - 48)) 0

/-- Exponent of a float literal: chars after the `e`, an optional sign and a
mandatory digit part consuming the whole remainder. -/
def parseExp (cs : List Char) : Option ℤ :=
  let (eneg, cs2) :=
    match cs with
    | '+' :: r => (false, r)
    | '-' :: r => (true, r)
    | r => (false, r)
  match digitPart cs2 with
  | some (ds, []) => some (if eneg then -(digitsVal ds : ℤ) else (digitsVal ds : ℤ))
  | _ => none

/-- Components of an unsigned numeric float literal
`[digitpart] ["." [digitpart]] ["e" [sign] digitpart]`, requiring at least
one mantissa digit and full consumption of the input; `none` when the input
is not a float literal.  Returns the mantissa digits read as a natural
number, the number of fractional digits, and the exponent.  This is the
numeric branch of Python's `float`. -/
def parseNumeric (cs : List Char) : Option (ℕ × ℕ × ℤ) :=
  let (ipart, rest1) :=
    match cs with
    | c :: _ => if c.isDigit then digitPartAux cs else (([] : List Char), cs)
    | [] => (([] : List Char), ([] : List Char))
  let (fpart, rest2) :=
    match rest1 with
    | '.' :: r =>
      match r with
      | c :: _ =>
        if c.isDigit then digitPartAux r else (([] : List Char), r)
      | [] => (([] : List Char), ([] : List Char))
    | r => (([] : List Char), r)
  if ipart = [] ∧ fpart = [] then none
  else
    match rest2 with
    | [] => some (digitsVal (ipart ++ fpart), fpart.length, 0)
    | 'e' :: r =>
      match parseExp r with
      | some ex => some (digitsVal (ipart ++ fpart), fpart.length, ex)
      | none => none
    | _ => none

/-- Exact rational value of a numeric float literal from its sign and
components: `±mantissa · 10^(exponent) / 10^(fracLen)`. -/
def litToRat (neg : Bool) (mantissa fracLen : ℕ) (ex : ℤ) : ℚ :=
  let m : ℕ := mantissa * 10 ^ ex.toNat
  let n : ℤ := if neg then -(m : ℤ) else (m : ℤ)
  mkRat n (10 ^ (fracLen + (-ex).toNat))

/-- Python's `float(token)` on a whitespace-free token: optional sign, then
case-insensitively `inf`, `infinity`, `nan`, or a numeric literal.  `none`
models the `ValueError` raised on anything else. -/
def pyFloatOfChars (cs0 : List Char) : Option PyFloat :=
  let cs := cs0.map Char.toLower
  let (neg, body) :=
    match cs with
    | '+' :: r => (false, r)
    | '-' :: r => (true, r)
    | r => (false, r)
  if body = ['i', 'n', 'f'] ∨ body = ['i', 'n', 'f', 'i', 'n', 'i', 't', 'y'] then
    some (if neg then PyFloat.negInf else PyFloat.inf)
  else if body = ['n', 'a', 'n'] then
    some PyFloat.nan
  else
    (parseNumeric body).map (fun c => PyFloat.finite (litToRat neg c.1 c.2.1 c.2.2))

/-- The `line.replace(',', ' ')` normalisation. -/
def commaToSpace (c : Char) : Char := if c = ',' then ' ' else c

/-- Splitting on runs of whitespace, Python `str.split()` with no
argument: empty pieces are dropped. -/
def splitWsAux : List Char → List Char → List (List Char)
  | [], acc => if acc = [] then [] else [acc.reverse]
  | c :: rest, acc =>
    if c.isWhitespace then
      if acc = [] then splitWsAux rest []
      else acc.reverse :: splitWsAux rest []
    else splitWsAux rest (c :: acc)

/-- Python `str.split()`: tokens of a character list. -/
def splitWs (cs : List Char) : List (List Char) := splitWsAux cs []

/-- Python `str.strip()`: drop leading and trailing whitespace. -/
def trimChars (cs : List Char) : List Char :=
  ((cs.dropWhile Char.isWhitespace).reverse.dropWhile Char.isWhitespace).reverse

/-- A parsed point: the ordered coordinate triple appended by
`points.append([x, y, z])`. -/
structure Point3 where
  x : PyFloat
  y : PyFloat
  z : PyFloat
deriving DecidableEq, Repr

/-- One iteration of the parser loop of `parse_xyz_file` (source lines
46-62): strip the line; skip it when empty or starting with `#`; normalise
commas, split on whitespace; when at least three tokens result, parse the
first three as floats, and skip the line when any of them fails. -/
def parseLine (line : String) : Option Point3 :=
  let l := trimChars line.data
  if l = [] then none
  else if l.head? = some '#' then none
  else
    match splitWs (l.map commaToSpace) with
    | t0 :: t1 :: t2 :: _ =>
      match pyFloatOfChars t0, pyFloatOfChars t1, pyFloatOfChars t2 with
      | some x, some y, some z => some ⟨x, y, z⟩
      | _, _, _ => none
    | _ => none

/-- `parse_xyz_file` (source lines 34-69) with the file contents given as
its list of lines: accumulate the points of the lines `parseLine` accepts,
and raise `ValueError("No valid points found in file")` when none were. -/
def parse_xyz_file (fileLines : List String) : Except String (List Point3) :=
  let pts := fileLines.filterMap parseLine
  if pts.isEmpty then Except.error "No valid points found in file"
  else Except.ok pts

instance {ε α : Type} [DecidableEq ε] [DecidableEq α] : DecidableEq (Except ε α) := fun a b =>
  match a, b with
  | .ok x, .ok y =>
    if h : x = y then .isTrue (by rw [h]) else .isFalse (fun hc => h (Except.ok.inj hc))
  | .error x, .error y =>
    if h : x = y then .isTrue (by rw [h]) else .isFalse (fun hc => h (Except.error.inj hc))
  | .ok _, .error _ => .isFalse (fun hc => Except.noConfusion hc)
  | .error _, .ok _ => .isFalse (fun hc => Except.noConfusion hc)

/-- A point with real-valued coordinates, the data model's view of a parsed
point once its float coordinates are read as real numbers. -/
structure RPoint where
  x : ℝ
  y : ℝ
  z : ℝ

/-- The real value of a finite parsed float.  The non-finite values are
mapped to `0`; this function is only ever applied where finiteness has been
established. -/
noncomputable def asReal : PyFloat → ℝ
  | PyFloat.finite q => (q : ℝ)
  | _ => 0

/-- Real-valued view of a parsed point list (the `np.array(points)` of
source line 67, with every coordinate finite). -/
noncomputable def toRPoints (pts : List Point3) : List RPoint :=
  pts.map (fun p => ⟨asReal p.x, asReal p.y, asReal p.z⟩)

/-- `np.min` over a coordinate list (`0` on the empty list, which the
source never reaches because parsing guarantees at least one point). -/
noncomputable def npMin : List ℝ → ℝ
  | [] => 0
  | a :: l => l.foldl min a

/-- `np.max` over a coordinate list. -/
noncomputable def npMax : List ℝ → ℝ
  | [] => 0
  | a :: l => l.foldl max a

/-- `np.mean`: the sum divided by the length. -/
noncomputable def npMean (xs : List ℝ) : ℝ := xs.sum / xs.length

/-- `np.std`: the square root of the mean of the squared deviations from
the mean — the population standard deviation (the divisor is N). -/
noncomputable def npStd (xs : List ℝ) : ℝ :=
  Real.sqrt (npMean (xs.map (fun a => (a - npMean xs) ^ 2)))

/-- The fixed-shape record built by `calculate_statistics`. -/
structure Stats where
  count : ℕ
  x_min : ℝ
  x_max : ℝ
  y_min : ℝ
  y_max : ℝ
  z_min : ℝ
  z_max : ℝ
  x_extent : ℝ
  y_extent : ℝ
  z_extent : ℝ
  x_mean : ℝ
  y_mean : ℝ
  z_mean : ℝ
  x_std : ℝ
  y_std : ℝ
  z_std : ℝ

/-- `calculate_statistics` (source lines 72-104): per-axis min, max,
extent (max − min), mean and `np.std` over all points, plus the count. -/
noncomputable def calculate_statistics (points : List RPoint) : Stats :=
  let xs := points.map RPoint.x
  let ys := points.map RPoint.y
  let zs := points.map RPoint.z
  { count := points.length
    x_min := npMin xs, x_max := npMax xs
    y_min := npMin ys, y_max := npMax ys
    z_min := npMin zs, z_max := npMax zs
    x_extent := npMax xs - npMin xs
    y_extent := npMax ys - npMin ys
    z_extent := npMax zs - npMin zs
    x_mean := npMean xs, y_mean := npMean ys, z_mean := npMean zs
    x_std := npStd xs, y_std := npStd ys, z_std := npStd zs }

/-- Squared Euclidean distance between two points. -/
noncomputable def ptDist2 (p q : RPoint) : ℝ :=
  (p.x - q.x) ^ 2 + (p.y - q.y) ^ 2 + (p.z - q.z) ^ 2

/-- Euclidean distance between two points, as computed by the k-d tree. -/
noncomputable def ptDist (p q : RPoint) : ℝ := Real.sqrt (ptDist2 p q)

/-- The index lists that `np.random.choice(len(points), sample_size,
replace=False)` can return: `sample_size` pairwise-distinct indices into
`points`.  The draw is uniform over these; the development quantifies over
all of them. -/
def ValidDraw (n sample_size : ℕ) (draw : List ℕ) : Prop :=
  draw.Nodup ∧ draw.length = sample_size ∧ ∀ i ∈ draw, i < n

instance (n sample_size : ℕ) (draw : List ℕ) :
    Decidable (ValidDraw n sample_size draw) := by
  unfold ValidDraw; infer_instance

/-- The working set of the nearest-neighbour computation (source lines
121-127): the points at the drawn indices when the count exceeds
`sample_size`, otherwise all points. -/
noncomputable def workingSet (points : List RPoint) (sample_size : ℕ) (draw : List ℕ) :
    List RPoint :=
  if sample_size < points.length then
    draw.map (fun i => points.getD i ⟨0, 0, 0⟩)
  else points

/-- The k-d tree query `tree.query(sample_points, k=2)` at index `i`,
keeping the second-closest result: the minimum distance from point `i` to
any point at another index.  When no other index exists scipy reports the
missing neighbour with an infinite distance, modelled by `⊤`. -/
noncomputable def nnDistAt (ws : List RPoint) (i : ℕ) : WithTop ℝ :=
  (((List.range ws.length).filter (fun j => j ≠ i)).map
      (fun j => ((ptDist (ws.getD i ⟨0, 0, 0⟩) (ws.getD j ⟨0, 0, 0⟩) : ℝ) : WithTop ℝ))).foldr
    min ⊤

/-- Sum of the per-point nearest-neighbour distances (`⊤` absorbs, as
infinity does under `np.mean`). -/
noncomputable def nnSum (ws : List RPoint) : WithTop ℝ :=
  ((List.range ws.length).map (nnDistAt ws)).sum

/-- `np.mean(nearest_distances)`: the sum divided by the working-set size,
infinite when any summand is. -/
noncomputable def nnAvg (ws : List RPoint) : WithTop ℝ :=
  (nnSum ws).map (fun s => s / (ws.length : ℝ))

/-- `calculate_nearest_neighbor_distance` (source lines 107-141) with the
random draw passed explicitly: subsample when the point count exceeds
`sample_size` (default 1000 at the call site), then average each working-set
point's distance to its nearest other working-set point. -/
noncomputable def calculate_nearest_neighbor_distance (points : List RPoint)
    (sample_size : ℕ) (draw : List ℕ) : WithTop ℝ :=
  nnAvg (workingSet points sample_size draw)

/-- Size of the working set used by `create_3d_visualization` (source lines
196-203): downsampled to 50,000 when the point count exceeds that. -/
def vizWorkingCount (n : ℕ) : ℕ := if 50000 < n then 50000 else n

/-- IEEE-style addition on Python float values: NaN propagates, opposite
infinities give NaN, an infinity absorbs finite values. -/
def pfAdd : PyFloat → PyFloat → PyFloat
  | PyFloat.nan, _ => PyFloat.nan
  | _, PyFloat.nan => PyFloat.nan
  | PyFloat.inf, PyFloat.negInf => PyFloat.nan
  | PyFloat.negInf, PyFloat.inf => PyFloat.nan
  | PyFloat.inf, _ => PyFloat.inf
  | _, PyFloat.inf => PyFloat.inf
  | PyFloat.negInf, _ => PyFloat.negInf
  | _, PyFloat.negInf => PyFloat.negInf
  | PyFloat.finite a, PyFloat.finite b =>
    PyFloat.finite (mkRat (a.num * (b.den : ℤ) + b.num * (a.den : ℤ)) (a.den * b.den))

/-- Division of a Python float value by a positive count, as in `np.mean`'s
final division: NaN and the infinities are preserved. -/
def pfDivNat (a : PyFloat) (n : ℕ) : PyFloat :=
  match a with
  | PyFloat.nan => PyFloat.nan
  | PyFloat.inf => PyFloat.inf
  | PyFloat.negInf => PyFloat.negInf
  | PyFloat.finite q => PyFloat.finite (mkRat q.num (q.den * n))

/-- `np.mean` of a list of Python float values: the float sum divided by
the length.  Total — no error is ever raised. -/
def pfMean (xs : List PyFloat) : PyFloat :=
  pfDivNat (xs.foldl pfAdd (PyFloat.finite 0)) xs.length

/-- Python's `round(x, 2)`: scale by 100 and round half to even.  Computed
on the numerator and denominator directly so that the definition evaluates
by kernel reduction. -/
def round2 (q : ℚ) : ℚ :=
  let s : ℚ := mkRat (q.num * 100) q.den
  let n : ℤ := Int.fdiv s.num s.den
  let r : ℤ := s.num - n * (s.den : ℤ)
  let k : ℤ :=
    if 2 * r < (s.den : ℤ) then n
    else if (s.den : ℤ) < 2 * r then n + 1
    else if 2 ∣ n then n else n + 1
  mkRat k 100

/-- The structured payload printed as `JSON_RESULT:` + JSON (source lines
442-449 and 453-456). -/
structure JsonResult where
  success : Bool
  output_file : Option String
  file_size_mb : Option ℚ
  point_count : Option ℕ
  error : Option String

/-- One line of standard output: either free-form diagnostic text or the
single structured result line tagged with the fixed `JSON_RESULT:` prefix. -/
inductive OutLine where
  | diag (s : String)
  | jsonResult (r : JsonResult)

/-- Whether a stdout line is the tagged structured result line. -/
def OutLine.isJson : OutLine → Bool
  | OutLine.jsonResult _ => true
  | OutLine.diag _ => false

/-- The external collaborators of one run, as oracles: the input file's
lines (or the read failure), the nearest-neighbour sampling draw, the two
renderers, the report assembler, and the size on disk of the produced
artifact.  An `Except.error` models the Python exception the collaborator
raises. -/
structure OrchEnv where
  readLines : Except String (List String)
  nnDraw : List ℕ
  histogramRender : Except String Unit
  vizRender : Except String Unit
  pdfBuild : Except String Unit
  outputSize : ℕ

/-- The body of `main`'s `try:` block (source lines 416-449): parse,
compute statistics and the nearest-neighbour average, render, assemble.
The first failing stage aborts with its error, as the first raised
exception does.  Returns the parsed point count (`stats['count']`) and the
artifact size. -/
noncomputable def tryPipeline (env : OrchEnv) : Except String (ℕ × ℕ) :=
  Except.bind env.readLines fun ls =>
  Except.bind (parse_xyz_file ls) fun pts =>
  let st := calculate_statistics (toRPoints pts)
  let _nn := calculate_nearest_neighbor_distance (toRPoints pts) 1000 env.nnDraw
  Except.bind env.histogramRender fun _ =>
  Except.bind env.vizRender fun _ =>
  Except.bind env.pdfBuild fun _ =>
  Except.ok (st.count, env.outputSize)

/-- Observable outcome of one process run: stdout lines, stderr lines, the
exit status, and whether the pipeline (hence the parser) was entered at
all. -/
structure RunResult where
  stdout : List OutLine
  stderrLines : List String
  exitCode : ℕ
  pipelineEntered : Bool

/-- The usage line printed when fewer than two positional arguments are
given (source lines 405-407); note the plain `print`, which goes to
standard output. -/
def usageLine : String := "Usage: python generate_report.py <input_file> <output_file>"

/-- `main` (source lines 403-458).  `argv` is `sys.argv`, program name
included.  With fewer than two positional arguments the usage line is
printed (to stdout) and the process exits with status 1 before any
processing.  Otherwise the pipeline runs: on success the structured result
carries the output path, the size in megabytes rounded to two decimals and
the parsed point count, and the exit status is 0; on any pipeline failure
the error is printed to stderr, the structured failure result is emitted
and the exit status is 1. -/
noncomputable def main (argv : List String) (env : OrchEnv) : RunResult :=
  if argv.length < 3 then
    { stdout := [OutLine.diag usageLine]
      stderrLines := []
      exitCode := 1
      pipelineEntered := false }
  else
    match tryPipeline env with
    | Except.ok (cnt, size) =>
      { stdout :=
          [OutLine.diag "POINT CLOUD ANALYSIS AND REPORT GENERATION",
           OutLine.diag "REPORT GENERATION COMPLETED SUCCESSFULLY",
           OutLine.jsonResult
             { success := true
               output_file := some (argv.getD 2 "")
               file_size_mb := some (round2 (mkRat size 1048576))
               point_count := some cnt
               error := none }]
        stderrLines := []
        exitCode := 0
        pipelineEntered := true }
    | Except.error e =>
      { stdout :=
          [OutLine.diag "POINT CLOUD ANALYSIS AND REPORT GENERATION",
           OutLine.jsonResult
             { success := false
               output_file := none
               file_size_mb := none
               point_count := none
               error := some e }]
        stderrLines := ["ERROR: " ++ e]
        exitCode := 1
        pipelineEntered := true }

/-- Modelled from the spec's words: the population standard deviation of a
coordinate list — the square root of the mean of the squared deviations
from the mean, with divisor N (the list's length), not N − 1.  Stated
independently of `npStd` so that the two can be compared. -/
noncomputable def popStd (xs : List ℝ) : ℝ :=
  Real.sqrt ((xs.map (fun a => (a - xs.sum / xs.length) ^ 2)).sum / xs.length)

/-- The spec's end-to-end example input file. -/
def exampleLines : List String :=
  ["0 0 0", "1 0 0", "0 1 0", "# comment", "", "bad data here"]

/-- The three points the end-to-end example file parses to. -/
def examplePts : List Point3 :=
  [⟨PyFloat.finite 0, PyFloat.finite 0, PyFloat.finite 0⟩,
   ⟨PyFloat.finite 1, PyFloat.finite 0, PyFloat.finite 0⟩,
   ⟨PyFloat.finite 0, PyFloat.finite 1, PyFloat.finite 0⟩]

/-- An input file whose data lines carry non-finite float tokens. -/
def nonFiniteLines : List String := ["nan -inf inf", "0 inf 1"]

/-- The points `nonFiniteLines` parses to. -/
def nonFinitePts : List Point3 :=
  [⟨PyFloat.nan, PyFloat.negInf, PyFloat.inf⟩,
   ⟨PyFloat.finite 0, PyFloat.inf, PyFloat.finite 1⟩]

/-- An arbitrary concrete environment (used where the environment is
irrelevant, e.g. the usage-error path). -/
def envStub : OrchEnv :=
  { readLines := Except.ok []
    nnDraw := []
    histogramRender := Except.ok ()
    vizRender := Except.ok ()
    pdfBuild := Except.ok ()
    outputSize := 0 }

/-- An environment whose input file contains only a comment, so parsing
fails. -/
def envParseFail : OrchEnv :=
  { readLines := Except.ok ["# only a comment"]
    nnDraw := []
    histogramRender := Except.ok ()
    vizRender := Except.ok ()
    pdfBuild := Except.ok ()
    outputSize := 0 }

/-- An environment for a fully successful run: a one-point input file and
a one-mebibyte artifact. -/
def envSuccess : OrchEnv :=
  { readLines := Except.ok ["0 0 0"]
    nnDraw := []
    histogramRender := Except.ok ()
    vizRender := Except.ok ()
    pdfBuild := Except.ok ()
    outputSize := 1048576 }

example : parse_xyz_file ["0 0 0"] =
    Except.ok [⟨PyFloat.finite 0, PyFloat.finite 0, PyFloat.finite 0⟩] := by decide

example : parse_xyz_file ["1.5, -2e1, nan", "# c", "", "bad data here"] =
    Except.ok [⟨PyFloat.finite (mkRat 3 2), PyFloat.finite (mkRat (-20) 1), PyFloat.nan⟩] := by
  decide

theorem foldl_min_le (l : List ℝ) (a : ℝ) :
    l.foldl min a ≤ a ∧ ∀ b ∈ l, l.foldl min a ≤ b := by
  induction l generalizing a with
  | nil => simp
  | cons c l ih =>
    refine ⟨le_trans (ih (min a c)).1 (min_le_left a c), ?_⟩
    intro b hb
    rcases List.mem_cons.mp hb with rfl | hb
    · exact le_trans (ih (min a b)).1 (min_le_right a b)
    · exact (ih (min a c)).2 b hb

theorem le_foldl_max (l : List ℝ) (a : ℝ) :
    a ≤ l.foldl max a ∧ ∀ b ∈ l, b ≤ l.foldl max a := by
  induction l generalizing a with
  | nil => simp
  | cons c l ih =>
    refine ⟨le_trans (le_max_left a c) (ih (max a c)).1, ?_⟩
    intro b hb
    rcases List.mem_cons.mp hb with rfl | hb
    · exact le_trans (le_max_right a b) (ih (max a b)).1
    · exact (ih (max a c)).2 b hb

theorem npMin_le_of_mem {xs : List ℝ} {b : ℝ} (hb : b ∈ xs) : npMin xs ≤ b := by
  cases xs with
  | nil => cases hb
  | cons a l =>
    rcases List.mem_cons.mp hb with rfl | hb
    · exact (foldl_min_le l b).1
    · exact (foldl_min_le l a).2 b hb

theorem le_npMax_of_mem {xs : List ℝ} {b : ℝ} (hb : b ∈ xs) : b ≤ npMax xs := by
  cases xs with
  | nil => cases hb
  | cons a l =>
    rcases List.mem_cons.mp hb with rfl | hb
    · exact (le_foldl_max l b).1
    · exact (le_foldl_max l a).2 b hb

theorem npMin_le_npMean {xs : List ℝ} (h : xs ≠ []) : npMin xs ≤ npMean xs := by
  have hlen : 0 < (xs.length : ℝ) := by
    have := List.length_pos.mpr h
    exact_mod_cast this
  rw [npMean, le_div_iff₀ hlen]
  have := List.card_nsmul_le_sum xs (npMin xs) (fun x hx => npMin_le_of_mem hx)
  rw [nsmul_eq_mul] at this
  linarith

theorem npMean_le_npMax {xs : List ℝ} (h : xs ≠ []) : npMean xs ≤ npMax xs := by
  have hlen : 0 < (xs.length : ℝ) := by
    have := List.length_pos.mpr h
    exact_mod_cast this
  rw [npMean, div_le_iff₀ hlen]
  have := List.sum_le_card_nsmul xs (npMax xs) (fun x hx => le_npMax_of_mem hx)
  rw [nsmul_eq_mul] at this
  linarith

theorem npStd_eq_popStd (xs : List ℝ) : npStd xs = popStd xs := by
  simp [npStd, popStd, npMean, List.length_map]

theorem npMean_replicate {n : ℕ} (c : ℝ) (hn : 0 < n) :
    npMean (List.replicate n c) = c := by
  have hn' : ((n : ℝ)) ≠ 0 := by exact_mod_cast Nat.pos_iff_ne_zero.mp hn
  simp [npMean, List.sum_replicate, nsmul_eq_mul]
  field_simp

theorem npStd_replicate {n : ℕ} (c : ℝ) (hn : 0 < n) :
    npStd (List.replicate n c) = 0 := by
  rw [npStd, List.map_replicate, npMean_replicate c hn, sub_self,
    zero_pow (by norm_num : 2 ≠ 0)]
  rw [npMean_replicate 0 hn, Real.sqrt_zero]

/-- C6: for every non-empty point set, on each axis the computed statistics
satisfy min ≤ mean ≤ max, the extent is max − min, the standard deviation
equals the population standard deviation (divisor N) and is non-negative;
and on a point set that is one point repeated, the standard deviation is 0
on all three axes. -/
theorem claim6_axis_statistics :
    (∀ points : List RPoint, points ≠ [] → ∀ s, s = calculate_statistics points →
      (s.x_min ≤ s.x_mean ∧ s.x_mean ≤ s.x_max) ∧
      (s.y_min ≤ s.y_mean ∧ s.y_mean ≤ s.y_max) ∧
      (s.z_min ≤ s.z_mean ∧ s.z_mean ≤ s.z_max) ∧
      (s.x_extent = s.x_max - s.x_min ∧ s.y_extent = s.y_max - s.y_min ∧
        s.z_extent = s.z_max - s.z_min) ∧
      (s.x_std = popStd (points.map RPoint.x) ∧
        s.y_std = popStd (points.map RPoint.y) ∧
        s.z_std = popStd (points.map RPoint.z)) ∧
      (0 ≤ s.x_std ∧ 0 ≤ s.y_std ∧ 0 ≤ s.z_std)) ∧
    (∀ (p : RPoint) (n : ℕ), 0 < n →
      ∀ s, s = calculate_statistics (List.replicate n p) →
        s.x_std = 0 ∧ s.y_std = 0 ∧ s.z_std = 0) := by
  constructor
  · intro points hne s hs
    subst hs
    have hx : points.map RPoint.x ≠ [] := by simpa using hne
    have hy : points.map RPoint.y ≠ [] := by simpa using hne
    have hz : points.map RPoint.z ≠ [] := by simpa using hne
    refine ⟨⟨npMin_le_npMean hx, npMean_le_npMax hx⟩,
      ⟨npMin_le_npMean hy, npMean_le_npMax hy⟩,
      ⟨npMin_le_npMean hz, npMean_le_npMax hz⟩,
      ⟨rfl, rfl, rfl⟩,
      ⟨npStd_eq_popStd _, npStd_eq_popStd _, npStd_eq_popStd _⟩,
      Real.sqrt_nonneg _, Real.sqrt_nonneg _, Real.sqrt_nonneg _⟩
  · intro p n hn s hs
    subst hs
    refine ⟨?_, ?_, ?_⟩ <;>
      simp only [calculate_statistics, List.map_replicate] <;>
      exact npStd_replicate _ hn

/-- Witness for C6 at the one-point set `[(1,2,3)]` and at the repeated
point `(1,2,3)` taken twice. -/
theorem claim6_witness :
    ((calculate_statistics [(⟨1, 2, 3⟩ : RPoint)]).x_min ≤
        (calculate_statistics [(⟨1, 2, 3⟩ : RPoint)]).x_mean ∧
      (calculate_statistics [(⟨1, 2, 3⟩ : RPoint)]).x_mean ≤
        (calculate_statistics [(⟨1, 2, 3⟩ : RPoint)]).x_max) ∧
    (calculate_statistics (List.replicate 2 (⟨1, 2, 3⟩ : RPoint))).x_std = 0 := by
  refine ⟨((claim6_axis_statistics.1 [⟨1, 2, 3⟩] (by simp) _ rfl).1), ?_⟩
  exact (claim6_axis_statistics.2 ⟨1, 2, 3⟩ 2 (by norm_num) _ rfl).1

/-- C5 (amended): a file in which no line yields a valid point fails with
the error message "No valid points found in file" (the source's
`ValueError` text, the spec's `ParseError`), and a successful parse never
returns an empty point set. -/
theorem claim5_no_valid_points :
    (∀ fileLines : List String, (∀ l ∈ fileLines, parseLine l = none) →
      parse_xyz_file fileLines = Except.error "No valid points found in file") ∧
    (∀ (fileLines : List String) (pts : List Point3),
      parse_xyz_file fileLines = Except.ok pts → pts ≠ []) := by
  constructor
  · intro fileLines hnone
    have : fileLines.filterMap parseLine = [] := by
      rw [List.filterMap_eq_nil_iff]
      exact hnone
    simp [parse_xyz_file, this]
  · intro fileLines pts hok
    rw [parse_xyz_file] at hok
    by_cases hemp : (fileLines.filterMap parseLine).isEmpty
    · simp [hemp] at hok
    · simp [hemp] at hok
      subst hok
      simpa [List.isEmpty_iff] using hemp

/-- Counterexample to C5 as stated: on a file with no valid data line the
parser's error message is "No valid points found in file", which is not
the claimed literal message "no valid points". -/
theorem claim5_counterexample :
    parse_xyz_file ["# header only", "   ", "1 2", "abc def ghi"] =
      Except.error "No valid points found in file" ∧
    "No valid points found in file" ≠ "no valid points" := by
  exact ⟨by decide, by decide⟩

/-- Witness for C5 on concrete inputs: a comments-only file fails with the
message, and a successful parse is non-empty. -/
theorem claim5_witness :
    parse_xyz_file ["# c", ""] = Except.error "No valid points found in file" ∧
    ([⟨PyFloat.finite 0, PyFloat.finite 0, PyFloat.finite 0⟩] : List Point3) ≠ [] := by
  refine ⟨claim5_no_valid_points.1 ["# c", ""] (by decide), ?_⟩
  exact claim5_no_valid_points.2 ["0 0 0"] _ (by decide)

/-- C10: lines whose first three tokens are non-finite float spellings
(`nan`, `inf`, `-inf`, `infinity`) are accepted as valid points, so a
successfully parsed point set can contain non-finite coordinates, and the
downstream float-semantics axis means are NaN or infinite while no error
is raised anywhere. -/
theorem claim10_nonfinite_accepted :
    parse_xyz_file nonFiniteLines = Except.ok nonFinitePts ∧
    pfMean (nonFinitePts.map Point3.x) = PyFloat.nan ∧
    pfMean (nonFinitePts.map Point3.y) = PyFloat.nan ∧
    pfMean (nonFinitePts.map Point3.z) = PyFloat.inf := by
  exact ⟨by decide, by decide, by decide, by decide⟩

theorem min_coe_top (a : ℝ) : min ((a : WithTop ℝ)) ⊤ = (a : WithTop ℝ) :=
  min_eq_left le_top

theorem ptDist_example_01 : ptDist ⟨0, 0, 0⟩ ⟨1, 0, 0⟩ = 1 := by
  rw [ptDist, ptDist2]
  norm_num [Real.sqrt_one]

theorem ptDist_example_10 : ptDist ⟨1, 0, 0⟩ ⟨0, 0, 0⟩ = 1 := by
  rw [ptDist, ptDist2]
  norm_num [Real.sqrt_one]

theorem ptDist_example_02 : ptDist ⟨0, 0, 0⟩ ⟨0, 1, 0⟩ = 1 := by
  rw [ptDist, ptDist2]
  norm_num [Real.sqrt_one]

theorem ptDist_example_20 : ptDist ⟨0, 1, 0⟩ ⟨0, 0, 0⟩ = 1 := by
  rw [ptDist, ptDist2]
  norm_num [Real.sqrt_one]

theorem ptDist_example_12 : ptDist ⟨1, 0, 0⟩ ⟨0, 1, 0⟩ = Real.sqrt 2 := by
  rw [ptDist, ptDist2]
  norm_num

theorem ptDist_example_21 : ptDist ⟨0, 1, 0⟩ ⟨1, 0, 0⟩ = Real.sqrt 2 := by
  rw [ptDist, ptDist2]
  norm_num

theorem one_le_sqrt_two : (1 : ℝ) ≤ Real.sqrt 2 := by
  rw [show (1 : ℝ) = Real.sqrt 1 from Real.sqrt_one.symm]
  exact Real.sqrt_le_sqrt (by norm_num)

theorem toRPoints_example :
    toRPoints examplePts = [⟨0, 0, 0⟩, ⟨1, 0, 0⟩, ⟨0, 1, 0⟩] := by
  simp [toRPoints, examplePts, asReal]

theorem nnAvg_example : nnAvg [(⟨0, 0, 0⟩ : RPoint), ⟨1, 0, 0⟩, ⟨0, 1, 0⟩] = 1 := by
  have hr : List.range 3 = [0, 1, 2] := by decide
  have hf0 : (List.range 3).filter (fun j => j ≠ 0) = [1, 2] := by decide
  have hf1 : (List.range 3).filter (fun j => j ≠ 1) = [0, 2] := by decide
  have hf2 : (List.range 3).filter (fun j => j ≠ 2) = [0, 1] := by decide
  have e0 : nnDistAt [(⟨0, 0, 0⟩ : RPoint), ⟨1, 0, 0⟩, ⟨0, 1, 0⟩] 0 = ((1 : ℝ) : WithTop ℝ) := by
    rw [nnDistAt]
    simp only [List.length_cons, List.length_nil]
    rw [hf0]
    simp only [List.map_cons, List.map_nil, List.foldr_cons, List.foldr_nil, List.getD_cons_zero,
      List.getD_cons_succ]
    rw [ptDist_example_01, ptDist_example_02, min_coe_top, min_self]
  have e1 : nnDistAt [(⟨0, 0, 0⟩ : RPoint), ⟨1, 0, 0⟩, ⟨0, 1, 0⟩] 1 = ((1 : ℝ) : WithTop ℝ) := by
    rw [nnDistAt]
    simp only [List.length_cons, List.length_nil]
    rw [hf1]
    simp only [List.map_cons, List.map_nil, List.foldr_cons, List.foldr_nil, List.getD_cons_zero,
      List.getD_cons_succ]
    rw [ptDist_example_10, ptDist_example_12, min_coe_top, ← WithTop.coe_min,
      min_eq_left one_le_sqrt_two]
  have e2 : nnDistAt [(⟨0, 0, 0⟩ : RPoint), ⟨1, 0, 0⟩, ⟨0, 1, 0⟩] 2 = ((1 : ℝ) : WithTop ℝ) := by
    rw [nnDistAt]
    simp only [List.length_cons, List.length_nil]
    rw [hf2]
    simp only [List.map_cons, List.map_nil, List.foldr_cons, List.foldr_nil, List.getD_cons_zero,
      List.getD_cons_succ]
    rw [ptDist_example_20, ptDist_example_21, min_coe_top, ← WithTop.coe_min,
      min_eq_left one_le_sqrt_two]
  have hsum : nnSum [(⟨0, 0, 0⟩ : RPoint), ⟨1, 0, 0⟩, ⟨0, 1, 0⟩] = ((3 : ℝ) : WithTop ℝ) := by
    rw [nnSum]
    simp only [List.length_cons, List.length_nil]
    rw [hr]
    simp only [List.map_cons, List.map_nil, e0, e1, e2, List.sum_cons, List.sum_nil]
    rw [add_zero, ← WithTop.coe_add, ← WithTop.coe_add]
    norm_num
  rw [nnAvg, hsum, WithTop.map_coe]
  simp only [List.length_cons, List.length_nil]
  rw [show ((3 : ℝ) / ((3 : ℕ) : ℝ)) = 1 by norm_num]
  exact WithTop.coe_one

/-- C1: the spec's end-to-end example: the six-line file parses to exactly
three points, the axis extents are 1, 1 and 0, and the average
nearest-neighbour distance is exactly 1. -/
theorem claim1_end_to_end :
    parse_xyz_file exampleLines = Except.ok examplePts ∧
    examplePts.length = 3 ∧
    (calculate_statistics (toRPoints examplePts)).x_extent = 1 ∧
    (calculate_statistics (toRPoints examplePts)).y_extent = 1 ∧
    (calculate_statistics (toRPoints examplePts)).z_extent = 0 ∧
    calculate_nearest_neighbor_distance (toRPoints examplePts) 1000 [] = 1 := by
  have h01 : (0 : ℝ) ≤ 1 := by norm_num
  refine ⟨by decide, by decide, ?_, ?_, ?_, ?_⟩
  · rw [toRPoints_example]
    simp only [calculate_statistics, List.map_cons, List.map_nil, npMax, npMin,
      List.foldl_cons, List.foldl_nil]
    rw [max_eq_right h01, max_eq_left h01, min_eq_left h01, min_self]
    norm_num
  · rw [toRPoints_example]
    simp only [calculate_statistics, List.map_cons, List.map_nil, npMax, npMin,
      List.foldl_cons, List.foldl_nil]
    rw [max_self, max_eq_right h01, min_self, min_eq_left h01]
    norm_num
  · rw [toRPoints_example]
    simp only [calculate_statistics, List.map_cons, List.map_nil, npMax, npMin,
      List.foldl_cons, List.foldl_nil]
    rw [max_self, max_self, min_self, min_self]
    norm_num
  · rw [toRPoints_example, calculate_nearest_neighbor_distance, workingSet,
      if_neg (by norm_num)]
    exact nnAvg_example

/-- C2 (the code, at the claim's failing input): on a working set of a
single point the computation raises nothing and returns positive infinity
(scipy's missing-neighbour convention, modelled by `⊤`) — a numeric value,
not a surfaced computation error. -/
theorem claim2_single_point_returns_inf :
    calculate_nearest_neighbor_distance [(⟨0, 0, 0⟩ : RPoint)] 1000 [] = ⊤ := by
  have hd : nnDistAt [(⟨0, 0, 0⟩ : RPoint)] 0 = ⊤ := by
    rw [nnDistAt]
    simp only [List.length_cons, List.length_nil]
    rw [show (List.range 1).filter (fun j => j ≠ 0) = [] by decide]
    rfl
  rw [calculate_nearest_neighbor_distance, workingSet, if_neg (by norm_num)]
  rw [nnAvg, nnSum]
  simp only [List.length_cons, List.length_nil]
  rw [show List.range 1 = [0] by decide]
  simp only [List.map_cons, List.map_nil, hd, List.sum_cons, List.sum_nil]
  rw [add_zero, WithTop.map_top]

/-- Counterexample to C4 as stated: the computation has no seed parameter;
its value depends on the ambient random draw, and two valid
without-replacement draws on the same input give different averages, so
repeated runs on identical input are not reproducible. -/
theorem claim4_counterexample :
    ValidDraw 3 2 [0, 1] ∧ ValidDraw 3 2 [1, 2] ∧
    calculate_nearest_neighbor_distance [(⟨0, 0, 0⟩ : RPoint), ⟨1, 0, 0⟩, ⟨10, 0, 0⟩] 2 [0, 1] ≠
      calculate_nearest_neighbor_distance [(⟨0, 0, 0⟩ : RPoint), ⟨1, 0, 0⟩, ⟨10, 0, 0⟩] 2
        [1, 2] := by
  refine ⟨by decide, by decide, ?_⟩
  have hA : workingSet [(⟨0, 0, 0⟩ : RPoint), ⟨1, 0, 0⟩, ⟨10, 0, 0⟩] 2 [0, 1] =
      [⟨0, 0, 0⟩, ⟨1, 0, 0⟩] := by
    rw [workingSet, if_pos (by norm_num)]
    simp [List.getD_cons_zero, List.getD_cons_succ]
  have hB : workingSet [(⟨0, 0, 0⟩ : RPoint), ⟨1, 0, 0⟩, ⟨10, 0, 0⟩] 2 [1, 2] =
      [⟨1, 0, 0⟩, ⟨10, 0, 0⟩] := by
    rw [workingSet, if_pos (by norm_num)]
    simp [List.getD_cons_zero, List.getD_cons_succ]
  have pair : ∀ p q : RPoint, ptDist p q = ptDist q p → nnAvg [p, q] =
      ((ptDist p q : ℝ) : WithTop ℝ) := by
    intro p q hsymm
    have hf0 : (List.range 2).filter (fun j => j ≠ 0) = [1] := by decide
    have hf1 : (List.range 2).filter (fun j => j ≠ 1) = [0] := by decide
    have e0 : nnDistAt [p, q] 0 = ((ptDist p q : ℝ) : WithTop ℝ) := by
      rw [nnDistAt]
      simp only [List.length_cons, List.length_nil]
      rw [hf0]
      simp only [List.map_cons, List.map_nil, List.foldr_cons, List.foldr_nil,
        List.getD_cons_zero, List.getD_cons_succ]
      rw [min_coe_top]
    have e1 : nnDistAt [p, q] 1 = ((ptDist p q : ℝ) : WithTop ℝ) := by
      rw [nnDistAt]
      simp only [List.length_cons, List.length_nil]
      rw [hf1]
      simp only [List.map_cons, List.map_nil, List.foldr_cons, List.foldr_nil,
        List.getD_cons_zero, List.getD_cons_succ]
      rw [min_coe_top, hsymm]
    rw [nnAvg, nnSum]
    simp only [List.length_cons, List.length_nil]
    rw [show List.range 2 = [0, 1] by decide]
    simp only [List.map_cons, List.map_nil, e0, e1, List.sum_cons, List.sum_nil]
    rw [add_zero, ← WithTop.coe_add, WithTop.map_coe]
    norm_num
  have dA : ptDist (⟨0, 0, 0⟩ : RPoint) ⟨1, 0, 0⟩ = 1 := ptDist_example_01
  have dAs : ptDist (⟨1, 0, 0⟩ : RPoint) ⟨0, 0, 0⟩ = 1 := ptDist_example_10
  have dB : ptDist (⟨1, 0, 0⟩ : RPoint) ⟨10, 0, 0⟩ = 9 := by
    rw [ptDist, ptDist2]
    norm_num
    rw [show (81 : ℝ) = 9 ^ 2 by norm_num, Real.sqrt_sq (by norm_num)]
  have dBs : ptDist (⟨10, 0, 0⟩ : RPoint) ⟨1, 0, 0⟩ = 9 := by
    rw [ptDist, ptDist2]
    norm_num
    rw [show (81 : ℝ) = 9 ^ 2 by norm_num, Real.sqrt_sq (by norm_num)]
  rw [calculate_nearest_neighbor_distance, calculate_nearest_neighbor_distance, hA, hB,
    pair _ _ (by rw [dA, dAs]), pair _ _ (by rw [dB, dBs]), dA, dB]
  intro hc
  have : (1 : ℝ) = 9 := WithTop.coe_injective hc
  norm_num at this

/-- C4 (amended): the computation takes no seed; when the point count does
not exceed `sample_size` no sampling occurs and the result is independent
of the random draw, hence deterministic across runs. -/
theorem claim4_deterministic_when_no_sampling :
    ∀ (points : List RPoint) (sample_size : ℕ) (drawA drawB : List ℕ),
      points.length ≤ sample_size →
      calculate_nearest_neighbor_distance points sample_size drawA =
        calculate_nearest_neighbor_distance points sample_size drawB := by
  intro points s a b h
  rw [calculate_nearest_neighbor_distance, calculate_nearest_neighbor_distance,
    workingSet, workingSet, if_neg (by omega), if_neg (by omega)]

/-- Witness for the amended C4 at a two-point set below the threshold. -/
theorem claim4_witness :
    calculate_nearest_neighbor_distance [(⟨0, 0, 0⟩ : RPoint), ⟨1, 0, 0⟩] 1000 [5] =
      calculate_nearest_neighbor_distance [(⟨0, 0, 0⟩ : RPoint), ⟨1, 0, 0⟩] 1000 [7] :=
  claim4_deterministic_when_no_sampling [⟨0, 0, 0⟩, ⟨1, 0, 0⟩] 1000 [5] [7] (by simp)

/-- C7: with threshold 1000, when the point count exceeds 1000 the working
set is the points at the 1000 drawn pairwise-distinct indices (a
without-replacement subset of the point set of exactly 1000 elements);
otherwise it is all the points.  Uniformity of the draw itself is numpy's
`np.random.choice` contract, modelled by quantifying over every valid
draw. -/
theorem claim7_sampling_threshold :
    ∀ (points : List RPoint) (draw : List ℕ),
      (1000 < points.length → ValidDraw points.length 1000 draw) →
      (1000 < points.length →
        workingSet points 1000 draw = draw.map (fun i => points.getD i ⟨0, 0, 0⟩) ∧
        (workingSet points 1000 draw).length = 1000 ∧
        draw.Nodup ∧
        ∀ p ∈ workingSet points 1000 draw, p ∈ points) ∧
      (points.length ≤ 1000 → workingSet points 1000 draw = points) := by
  intro points draw hvd
  constructor
  · intro hlen
    obtain ⟨hnd, hdl, hbound⟩ := hvd hlen
    have hws : workingSet points 1000 draw = draw.map (fun i => points.getD i ⟨0, 0, 0⟩) := by
      rw [workingSet, if_pos hlen]
    refine ⟨hws, ?_, hnd, ?_⟩
    · rw [hws, List.length_map, hdl]
    · intro p hp
      rw [hws] at hp
      obtain ⟨i, hi, hpi⟩ := List.mem_map.mp hp
      have hilt : i < points.length := hbound i hi
      rw [List.getD_eq_getElem points ⟨0, 0, 0⟩ hilt] at hpi
      exact hpi ▸ List.getElem_mem hilt
  · intro hle
    rw [workingSet, if_neg (by omega)]

/-- Witness for C7 at a one-point set (below the threshold, so the sampling
hypothesis is vacuous and the working set is the whole point set). -/
theorem claim7_witness :
    workingSet [(⟨0, 0, 0⟩ : RPoint)] 1000 [] = [(⟨0, 0, 0⟩ : RPoint)] :=
  (claim7_sampling_threshold [⟨0, 0, 0⟩] [] (fun h => absurd h (by simp))).2 (by simp)

/-- Counterexample to C3 as stated: at the concrete invocation with one
positional argument, nothing at all is written to the standard error
channel — the usage line goes to standard output — so the claim's
"reports a usage error on the standard error channel" fails (the non-zero
exit and the absence of parsing do hold). -/
theorem claim3_counterexample :
    (main ["generate_report.py", "cloud.xyz"] envStub).stderrLines = [] ∧
    (main ["generate_report.py", "cloud.xyz"] envStub).stdout = [OutLine.diag usageLine] ∧
    (main ["generate_report.py", "cloud.xyz"] envStub).exitCode = 1 ∧
    (main ["generate_report.py", "cloud.xyz"] envStub).pipelineEntered = false := by
  rw [main, if_pos (by norm_num)]
  exact ⟨rfl, rfl, rfl, rfl⟩

/-- C3 (amended): with fewer than two positional arguments the usage line
is printed — on standard output, not standard error — the exit status is
non-zero, and the pipeline (hence any parsing) is never entered. -/
theorem claim3_usage_error :
    ∀ (argv : List String) (env : OrchEnv), argv.length < 3 →
      (main argv env).stdout = [OutLine.diag usageLine] ∧
      (main argv env).stderrLines = [] ∧
      (main argv env).exitCode ≠ 0 ∧
      (main argv env).pipelineEntered = false := by
  intro argv env h
  rw [main, if_pos h]
  exact ⟨rfl, rfl, by norm_num, rfl⟩

/-- Witness for the amended C3 at a bare program name. -/
theorem claim3_witness :
    (main ["generate_report.py"] envStub).stdout = [OutLine.diag usageLine] ∧
    (main ["generate_report.py"] envStub).stderrLines = [] ∧
    (main ["generate_report.py"] envStub).exitCode ≠ 0 ∧
    (main ["generate_report.py"] envStub).pipelineEntered = false :=
  claim3_usage_error ["generate_report.py"] envStub (by simp)

/-- C8: whenever any pipeline stage fails, the orchestrator catches the
failure: standard output carries exactly one structured result line (the
tagged `JSON_RESULT` payload) with `success = false` and the error message,
the error is echoed on standard error, and the exit status is non-zero.
`main` is a total function of its oracles, so no failure escapes it. -/
theorem claim8_failure_normalized :
    ∀ (argv : List String) (env : OrchEnv) (e : String),
      3 ≤ argv.length → tryPipeline env = Except.error e →
      (main argv env).stdout.filter OutLine.isJson =
        [OutLine.jsonResult
          { success := false
            output_file := none
            file_size_mb := none
            point_count := none
            error := some e }] ∧
      (main argv env).stderrLines = ["ERROR: " ++ e] ∧
      (main argv env).exitCode ≠ 0 := by
  intro argv env e hlen herr
  rw [main, if_neg (by omega), herr]
  exact ⟨rfl, rfl, by norm_num⟩

theorem exbind_ok {α β : Type} (a : α) (f : α → Except String β) :
    Except.bind (Except.ok a) f = f a := rfl

theorem exbind_error {α β : Type} (e : String) (f : α → Except String β) :
    Except.bind (Except.error e) f = Except.error e := rfl

theorem tryPipeline_envParseFail :
    tryPipeline envParseFail = Except.error "No valid points found in file" := by
  have hp : parse_xyz_file ["# only a comment"] =
      Except.error "No valid points found in file" := by decide
  simp only [tryPipeline, envParseFail, exbind_ok, hp, exbind_error]

/-- Witness for C8: a run whose parse stage fails. -/
theorem claim8_witness :
    (main ["g", "in.xyz", "out.pdf"] envParseFail).stdout.filter OutLine.isJson =
      [OutLine.jsonResult
        { success := false
          output_file := none
          file_size_mb := none
          point_count := none
          error := some "No valid points found in file" }] ∧
    (main ["g", "in.xyz", "out.pdf"] envParseFail).stderrLines =
      ["ERROR: " ++ "No valid points found in file"] ∧
    (main ["g", "in.xyz", "out.pdf"] envParseFail).exitCode ≠ 0 :=
  claim8_failure_normalized ["g", "in.xyz", "out.pdf"] envParseFail
    "No valid points found in file" (by simp) tryPipeline_envParseFail

/-- C9: on a fully successful run, standard output carries exactly one
structured result with `success = true`, the output path, the artifact size
in mebibytes rounded to two decimals, and a point count equal to the length
of the parsed point set — which differs from the visualization's
downsampled working-set size whenever downsampling occurs — and the exit
status is 0. -/
theorem claim9_success_result :
    ∀ (argv : List String) (env : OrchEnv) (ls : List String) (pts : List Point3),
      3 ≤ argv.length →
      env.readLines = Except.ok ls →
      parse_xyz_file ls = Except.ok pts →
      env.histogramRender = Except.ok () →
      env.vizRender = Except.ok () →
      env.pdfBuild = Except.ok () →
      (main argv env).stdout.filter OutLine.isJson =
        [OutLine.jsonResult
          { success := true
            output_file := some (argv.getD 2 "")
            file_size_mb := some (round2 (mkRat env.outputSize 1048576))
            point_count := some pts.length
            error := none }] ∧
      (main argv env).exitCode = 0 ∧
      (50000 < pts.length → pts.length ≠ vizWorkingCount pts.length) := by
  intro argv env ls pts hlen hread hparse hhist hviz hpdf
  have hcount : (calculate_statistics (toRPoints pts)).count = pts.length := by
    simp [calculate_statistics, toRPoints]
  have htry : tryPipeline env = Except.ok (pts.length, env.outputSize) := by
    simp only [tryPipeline, hread, hparse, hhist, hviz, hpdf, exbind_ok, hcount]
  rw [main, if_neg (by omega), htry]
  refine ⟨rfl, rfl, ?_⟩
  intro hgt
  rw [vizWorkingCount, if_pos hgt]
  omega

/-- Witness for C9: a successful run on a one-point file producing a
one-mebibyte artifact; the rounded size evaluates to exactly 1. -/
theorem claim9_witness :
    (main ["g", "in.xyz", "out.pdf"] envSuccess).stdout.filter OutLine.isJson =
      [OutLine.jsonResult
        { success := true
          output_file := some "out.pdf"
          file_size_mb := some (round2 (mkRat 1048576 1048576))
          point_count := some 1
          error := none }] ∧
    (main ["g", "in.xyz", "out.pdf"] envSuccess).exitCode = 0 ∧
    round2 (mkRat 1048576 1048576) = 1 := by
  have h := claim9_success_result ["g", "in.xyz", "out.pdf"] envSuccess ["0 0 0"]
    [⟨PyFloat.finite 0, PyFloat.finite 0, PyFloat.finite 0⟩]
    (by simp) rfl (by decide) rfl rfl rfl
  exact ⟨h.1, h.2.1, by decide⟩

end GenReport
